import Mathlib

/-!
Verification development for the AI candidate assessment platform frontend
(chat client, voice client, HR dashboard) and the spec-level orchestration
contract (session stages, endSession, recordDecision, transport adapters).

The client pages are embedded as pure state-transition functions: each React
event handler becomes a function from the relevant component state (and the
incoming JSON frame or DOM event) to the new state together with the list of
externally visible actions it performs (WebSocket sends, fetch calls, audio
playback, console output).
-/

namespace Assess

/-- JSON frame exchanged on the realtime WebSocket protocol. String fields
absent from a concrete frame are represented by the empty string, matching
the JavaScript truthiness tests the clients perform on them; the boolean
completion flag defaults to false. -/
structure Frame where
  type : String
  message : String := ""
  text : String := ""
  content : String := ""
  agent : String := ""
  is_complete : Bool := false
  audioB64 : String := ""
  avatar_state : String := ""
  format : String := ""
deriving DecidableEq, Repr

/-- Externally visible effects a client event handler can perform. -/
inductive ClientAction where
  | sendFrame (f : Frame)
  | closeWs
  | fetchEndSession
  | playAudio (a : String)
  | speakBrowser (t : String)
  | consoleError (m : String)
  | consoleLog (m : String)
deriving DecidableEq, Repr

/-- One transcript entry of the voice page (role is "user" or "assistant"). -/
structure TranscriptItem where
  role : String
  text : String
deriving DecidableEq, Repr

/-- React state of the voice interview page (voice page component state). -/
structure VoiceState where
  isConnected : Bool := false
  isRecording : Bool := false
  isMuted : Bool := false
  avatarState : String := "idle"
  transcript : List TranscriptItem := []
  currentText : String := ""
  isComplete : Bool := false
deriving DecidableEq, Repr

/-- The voice page WebSocket onmessage dispatch: a switch on the frame type
with branches for "ready", "status", "transcription", "response" and
"error"; any other frame type falls through with no effect. -/
def voiceOnMessage (s : VoiceState) (data : Frame) : VoiceState × List ClientAction :=
  if data.type = "ready" then
    ({ s with
        currentText := data.message
        avatarState := "speaking"
        transcript := s.transcript ++ [({ role := "assistant", text := data.message } : TranscriptItem)] },
      if data.audioB64 ≠ "" then [.playAudio data.audioB64] else [.speakBrowser data.message])
  else if data.type = "status" then
    ({ s with
        avatarState := data.avatar_state
        currentText := if data.message ≠ "" then data.message else s.currentText }, [])
  else if data.type = "transcription" then
    ({ s with transcript := s.transcript ++ [({ role := "user", text := data.text } : TranscriptItem)] }, [])
  else if data.type = "response" then
    ({ s with
        currentText := data.text
        avatarState := "speaking"
        transcript := s.transcript ++ [({ role := "assistant", text := data.text } : TranscriptItem)]
        isComplete := if data.is_complete then true else s.isComplete },
      if data.audioB64 ≠ "" then [.playAudio data.audioB64] else [.speakBrowser data.text])
  else if data.type = "error" then
    ({ s with avatarState := "idle" }, [.consoleError data.message])
  else (s, [])

/-- One chat message of the chat page message list. -/
structure ChatMessage where
  role : String
  content : String
  agent : String := ""
deriving DecidableEq, Repr

/-- React state of the chat interview page (chat page component state). -/
structure ChatState where
  messages : List ChatMessage := []
  inputValue : String := ""
  isConnected : Bool := false
  isTyping : Bool := false
  currentAgent : String := "profile_analyzer"
  isComplete : Bool := false
deriving DecidableEq, Repr

/-- JavaScript string disjunction: a || b is a when a is truthy, else b. -/
def jsOr (a b : String) : String := if a ≠ "" then a else b

/-- Model of the JavaScript string trim method: removes whitespace
characters from both ends of the string. Defined over the character list so
the kernel can evaluate it on concrete strings. -/
def jsTrim (s : String) : String :=
  { data := ((s.data.dropWhile Char.isWhitespace).reverse.dropWhile Char.isWhitespace).reverse }

/-- The chat page WebSocket onmessage dispatch: an if chain on the frame type
with branches for "typing", "response" and "ready"; any other frame type,
including "error", falls through with no effect. On a completed response the
handler also posts the session-end endpoint (the auto-save fetch). -/
def chatOnMessage (s : ChatState) (data : Frame) : ChatState × List ClientAction :=
  if data.type = "typing" then
    ({ s with isTyping := true, currentAgent := jsOr data.agent "assistant" }, [])
  else if data.type = "response" then
    ({ s with
        isTyping := false
        messages := s.messages ++
          [({ role := "assistant", content := data.content, agent := data.agent } : ChatMessage)]
        currentAgent := jsOr data.agent "assistant"
        isComplete := if data.is_complete then true else s.isComplete },
      if data.is_complete then [.fetchEndSession] else [])
  else if data.type = "ready" then
    (s, [.consoleLog data.message])
  else (s, [])

/-- The chat page sendMessage handler: bails out when the trimmed input is
empty, the WebSocket ref is absent, or the socket is not connected; otherwise
appends the user message locally, sends a message frame carrying the raw
input value, and clears the input. -/
def sendMessage (s : ChatState) (wsPresent : Bool) : ChatState × List ClientAction :=
  if jsTrim s.inputValue = "" ∨ wsPresent = false ∨ s.isConnected = false then (s, [])
  else
    ({ s with
        messages := s.messages ++ [({ role := "user", content := s.inputValue } : ChatMessage)]
        inputValue := "" },
      [.sendFrame { type := "message", content := s.inputValue }])

/-- The chat page endSession handler: when the WebSocket ref is present it
sends an end frame and closes the socket; when a session id is known it posts
the session-end endpoint. -/
def chatEndSessionClick (wsPresent hasSessionId : Bool) : List ClientAction :=
  (if wsPresent then [.sendFrame { type := "end" }, .closeWs] else []) ++
  (if hasSessionId then [.fetchEndSession] else [])

/-- The voice page endSession handler: when the WebSocket ref is present it
sends an end frame and closes the socket. -/
def voiceEndSessionClick (wsPresent : Bool) : List ClientAction :=
  if wsPresent then [.sendFrame { type := "end" }, .closeWs] else []

/-- The voice page media recorder onstop callback: when the socket is open it
sends an audio frame carrying the recorded clip as base64 with format webm. -/
def voiceRecorderOnStop (wsLive : Bool) (b64 : String) : List ClientAction :=
  if wsLive then [.sendFrame { type := "audio", audioB64 := b64, format := "webm" }] else []

/-- The voice page microphone button disabled predicate, read off the JSX
disabled attribute. -/
def micDisabled (s : VoiceState) : Bool :=
  !s.isConnected || s.avatarState == "speaking" || s.avatarState == "thinking" || s.isComplete

/-- Events that drive the voice page UI state. -/
inductive VoiceEvent where
  | wsOpen
  | wsClose
  | wsMsg (f : Frame)
  | micClick
  | playbackEnded
  | recorderStopped (wsLive : Bool) (b64 : String)
deriving DecidableEq, Repr

/-- Transition function of the voice page UI: socket open/close callbacks,
the onmessage dispatch, the microphone button click (a no-op while the button
is disabled; toggles recording otherwise, entering the listening avatar state
when recording starts), the end of audio playback or browser speech, and the
media recorder onstop callback. -/
def voiceStep (s : VoiceState) (e : VoiceEvent) : VoiceState × List ClientAction :=
  match e with
  | .wsOpen => ({ s with isConnected := true }, [])
  | .wsClose => ({ s with isConnected := false }, [])
  | .wsMsg f => voiceOnMessage s f
  | .micClick =>
      if micDisabled s then (s, [])
      else if s.isRecording then ({ s with isRecording := false }, [])
      else ({ s with isRecording := true, avatarState := "listening" }, [])
  | .playbackEnded => ({ s with avatarState := "idle" }, [])
  | .recorderStopped wsLive b64 => (s, voiceRecorderOnStop wsLive b64)

/-- Candidate record as consumed by the HR dashboard page. -/
structure Candidate where
  id : String
  name : String
  email : String
  job_role : String
  status : String
  created_at : String
deriving DecidableEq, Repr

/-- Latest assessment report as consumed by the HR dashboard page; the HR
decision is a nullable string. Scores are modelled as integers since no claim
depends on fractional score values. -/
structure Report where
  id : String
  overall_score : Int := 0
  technical_score : Int := 0
  behavioral_score : Int := 0
  recommendation : String := ""
  hr_reviewed : Bool := false
  hr_decision : Option String := none
deriving DecidableEq, Repr

/-- One row of the HR dashboard candidate list. -/
structure CandidateWithAssessment where
  candidate : Candidate
  latest_report : Option Report := none
  sessions_count : Nat := 0
deriving DecidableEq, Repr

/-- JavaScript truthiness of a nullable string: null and the empty string are
falsy, every other string is truthy. -/
def jsTruthy : Option String → Bool
  | none => false
  | some s => decide (s ≠ "")

/-- The filter predicate of the HR dashboard candidate list, read off the
filteredCandidates arrow function: the "all" filter keeps everything,
"pending" keeps candidates whose status is "hr_review", "approved" and
"rejected" compare the optionally chained latest report decision against
"approve" and "reject", and any other filter value keeps everything. -/
def candidateFilterPred (filter : String) (c : CandidateWithAssessment) : Bool :=
  if filter = "all" then true
  else if filter = "pending" then decide (c.candidate.status = "hr_review")
  else if filter = "approved" then
    (match c.latest_report with
      | none => false
      | some r => decide (r.hr_decision = some "approve"))
  else if filter = "rejected" then
    (match c.latest_report with
      | none => false
      | some r => decide (r.hr_decision = some "reject"))
  else true

/-- The filteredCandidates value of the HR dashboard page. -/
def filteredCandidates (filter : String) (candidates : List CandidateWithAssessment) :
    List CandidateWithAssessment :=
  candidates.filter (candidateFilterPred filter)

/-- Dashboard statistics shape as declared by the HR page DashboardStats
interface. -/
structure DashboardStats where
  total_candidates : Nat
  pending_review : Nat
  approved : Nat
  rejected : Nat
  in_progress : Nat
deriving DecidableEq, Repr

/-- JSON view of the client DashboardStats shape: which field names the
consumed stats object carries, per the HR page DashboardStats interface. -/
def DashboardStats.getField (s : DashboardStats) (t : String) : Option Nat :=
  if t = "total_candidates" then some s.total_candidates
  else if t = "pending_review" then some s.pending_review
  else if t = "approved" then some s.approved
  else if t = "rejected" then some s.rejected
  else if t = "in_progress" then some s.in_progress
  else none

/-- The five field names of the stats object the HR dashboard client
consumes. -/
def clientStatsFieldNames : List String :=
  ["total_candidates", "pending_review", "approved", "rejected", "in_progress"]

/-- Modelled from the spec: the field names of the dashboardStats result as
written in the external interface section; the backend HR router that
produces this object is not part of the sources. -/
def specStatsFieldNames : List String :=
  ["total", "pending", "approved", "rejected", "in_progress"]

/-- The five stat cards of the HR dashboard, in render order, each card
showing its stats field with the JavaScript fallback to 0 when the stats
object is still null. -/
def statCards (stats : Option DashboardStats) : List (String × Nat) :=
  [("Total Candidates", (stats.map DashboardStats.total_candidates).getD 0),
   ("Pending Review", (stats.map DashboardStats.pending_review).getD 0),
   ("In Progress", (stats.map DashboardStats.in_progress).getD 0),
   ("Approved", (stats.map DashboardStats.approved).getD 0),
   ("Rejected", (stats.map DashboardStats.rejected).getD 0)]

/-- The guard under which the HR dashboard renders decision buttons, both in
the table row and in the detail modal: a latest report exists and its
decision field is JavaScript-falsy. -/
def decisionGuard (item : CandidateWithAssessment) : Bool :=
  match item.latest_report with
  | none => false
  | some r => !(jsTruthy r.hr_decision)

/-- The report ids the decision buttons of a table row pass to handleDecision
when clicked, paired with the decision each button submits. The id is the
optionally projected latest report id, so a none here would mean the
non-null assertion in the source dereferenced null. -/
def tableDecisionCalls (item : CandidateWithAssessment) : List (Option String × String) :=
  if decisionGuard item then
    [(item.latest_report.map Report.id, "approve"),
     (item.latest_report.map Report.id, "reject")]
  else []

/-- The report ids the decision buttons of the detail modal pass to
handleDecision when clicked, paired with the decision each button submits. -/
def modalDecisionCalls (sel : CandidateWithAssessment) : List (Option String × String) :=
  if decisionGuard sel then
    [(sel.latest_report.map Report.id, "approve"),
     (sel.latest_report.map Report.id, "hold"),
     (sel.latest_report.map Report.id, "reject")]
  else []

/-- Error outcomes of the HR decision surface. -/
inductive HRErr where
  | reportNotFound
  | decisionAlreadyRecorded
deriving DecidableEq, Repr

/-- Modelled from the spec: the backend recordDecision operation, which is
not part of the sources. It records a decision on a report, failing with
DecisionAlreadyRecorded when the report already carries a decision; once
recorded the decision is final for that report. -/
def recordDecision (r : Report) (decision : String) : Except HRErr Report :=
  if r.hr_decision.isSome then .error .decisionAlreadyRecorded
  else .ok { r with hr_decision := some decision, hr_reviewed := true }

/-- Error outcomes of the turn dispatcher named by the spec taxonomy. -/
inductive SubmitErr where
  | sessionClosed
  | sessionNotFound
  | agentFailure
  | turnInProgress
deriving DecidableEq, Repr

/-- User-facing message of a dispatcher error outcome. -/
def submitErrMessage : SubmitErr → String
  | .sessionClosed => "Session is closed"
  | .sessionNotFound => "Session not found"
  | .agentFailure => "Agent failed, please retry"
  | .turnInProgress => "A turn is already in progress"

/-- Modelled from the spec: the transport adapters, which are not part of
the sources, translate an error outcome of submitTurn into an error frame
carrying a message, never dropping it silently. -/
def adapterErrorFrame (e : SubmitErr) : Frame :=
  { type := "error", message := submitErrMessage e }

/-- The interview stages in their fixed linear order, followed by the
terminal closed state. -/
inductive Stage where
  | profileAnalysis
  | technicalInterview
  | behavioralInterview
  | evaluation
  | hrHandoff
  | closed
deriving DecidableEq, Repr

/-- Position of a stage in the fixed order. -/
def Stage.idx : Stage → Nat
  | .profileAnalysis => 0
  | .technicalInterview => 1
  | .behavioralInterview => 2
  | .evaluation => 3
  | .hrHandoff => 4
  | .closed => 5

/-- Modelled from the spec: the session state machine advance function,
which is not part of the sources. A true completion signal moves to the next
stage in the fixed order, HR handoff completion moving to closed; a false
signal stays; closed is frozen. -/
def advance : Stage → Bool → Stage
  | s, false => s
  | .profileAnalysis, true => .technicalInterview
  | .technicalInterview, true => .behavioralInterview
  | .behavioralInterview, true => .evaluation
  | .evaluation, true => .hrHandoff
  | .hrHandoff, true => .closed
  | .closed, true => .closed

/-- Events that can change a session stage: a processed turn carrying the
stage completion signal, or a forced end (explicit end request or inactivity
sweep). -/
inductive SessionEvent where
  | turn (complete : Bool)
  | forcedEnd
deriving DecidableEq, Repr

/-- Modelled from the spec: one stage transition of a session; a turn goes
through advance, a forced end moves to closed from any stage. -/
def stepStage : Stage → SessionEvent → Stage
  | s, .turn c => advance s c
  | _, .forcedEnd => .closed

/-- The sequence of stage values observed over time when a session starting
at stage s processes the given events. -/
def stageTrace (s : Stage) : List SessionEvent → List Stage
  | [] => [s]
  | e :: es => s :: stageTrace (stepStage s e) es

/-- Server-side session state relevant to closure and report creation. -/
structure SessionState where
  sid : String
  stage : Stage := .profileAnalysis
  report : Option Report := none
deriving DecidableEq, Repr

/-- Modelled from the spec: the incomplete report synthesized on a forced
end when no report exists yet. -/
def synthesizeReport (s : SessionState) : Report :=
  { id := s.sid ++ "-report", recommendation := "incomplete interview" }

/-- Modelled from the spec: the backend endSession operation, which is not
part of the sources. Ending an already closed session is a no-op rather than
an error; otherwise the session is moved to closed and, when no report
exists yet, one is synthesized. The operation is total, so every call
returns successfully. -/
def endSession (s : SessionState) : SessionState :=
  if s.stage = .closed then s
  else { s with stage := .closed, report := some (s.report.getD (synthesizeReport s)) }

/-- Number of reports attached to a session. -/
def reportCount (s : SessionState) : Nat :=
  if s.report.isSome then 1 else 0

/-- The message kinds named by the realtime turn protocol section of the
external interface. -/
def specKinds : List String :=
  ["ready", "message", "transcription", "response", "status", "error", "end"]

/-- The message kinds actually exchanged: the spec kinds together with the
chat typing indicator and the voice audio upload. -/
def extendedKinds : List String := specKinds ++ ["typing", "audio"]

/-- A frame whose type is none of "typing", "response", "ready" falls through
the chat onmessage dispatch with no effect. -/
lemma chatOnMessage_unhandled (s : ChatState) (f : Frame)
    (ht : f.type ≠ "typing") (hr : f.type ≠ "response") (hy : f.type ≠ "ready") :
    chatOnMessage s f = (s, []) := by
  simp [chatOnMessage, ht, hr, hy]

/-- A frame whose type is none of the five voice branches falls through the
voice onmessage dispatch with no effect. -/
lemma voiceOnMessage_unhandled (s : VoiceState) (f : Frame)
    (h1 : f.type ≠ "ready") (h2 : f.type ≠ "status") (h3 : f.type ≠ "transcription")
    (h4 : f.type ≠ "response") (h5 : f.type ≠ "error") :
    voiceOnMessage s f = (s, []) := by
  simp [voiceOnMessage, h1, h2, h3, h4, h5]

/-- The voice onmessage dispatch never touches the recording flag. -/
lemma voiceOnMessage_isRecording (s : VoiceState) (f : Frame) :
    (voiceOnMessage s f).1.isRecording = s.isRecording := by
  unfold voiceOnMessage
  split_ifs <;> rfl

/-- C1 counterexample: the chat client silently drops an error frame. At a
concrete chat state, the chat WebSocket onmessage dispatch applied to a frame
of type "error" leaves the state unchanged and performs no action, refuting
the part of the claim saying the chat dispatch handles error frames rather
than ignoring them. -/
theorem chat_client_drops_error_frame :
    chatOnMessage {} { type := "error", message := "Agent failed, please retry" } =
      ({}, []) := by
  decide

/-- C1 (amended): for the error-class outcomes of submitTurn the transport
adapter emits a frame of type "error" (adapter modelled from the spec), and
the voice client onmessage dispatch processes such a frame through its
"error" branch, logging the message and resetting the avatar, never dropping
it; the chat client has no such branch. -/
theorem voice_client_processes_error_frames :
    ∀ e : SubmitErr, e = .turnInProgress ∨ e = .agentFailure →
      (adapterErrorFrame e).type = "error" ∧
      ∀ s : VoiceState,
        voiceOnMessage s (adapterErrorFrame e) =
          ({ s with avatarState := "idle" }, [.consoleError (submitErrMessage e)]) := by
  intro e _
  refine ⟨rfl, fun s => ?_⟩
  simp [voiceOnMessage, adapterErrorFrame]

/-- C1 witness: the amended theorem applied to the TurnInProgress outcome and
a concrete voice state. -/
theorem voice_client_processes_error_frames_witness :
    (adapterErrorFrame .turnInProgress).type = "error" ∧
      voiceOnMessage {} (adapterErrorFrame .turnInProgress) =
        ({ avatarState := "idle" }, [.consoleError (submitErrMessage .turnInProgress)]) := by
  have h := voice_client_processes_error_frames .turnInProgress (Or.inl rfl)
  exact ⟨h.1, h.2 {}⟩

/-- Concrete stats object of the shape the HR dashboard client declares. -/
def exStats : DashboardStats :=
  { total_candidates := 3, pending_review := 1, approved := 1, rejected := 1, in_progress := 0 }

/-- C2 counterexample: the stats object the HR client consumes does not carry
a field named "total" (nor "pending"): at the concrete stats object the field
lookup for the spec name "total" is absent while "total_candidates" is
present, refuting the claim that the client consumes an object with exactly
the fields total, pending, approved, rejected, in_progress. -/
theorem client_stats_has_no_total_field :
    exStats.getField "total" = none ∧ "total" ∈ specStatsFieldNames ∧
      exStats.getField "pending" = none ∧
      exStats.getField "total_candidates" = some 3 ∧
      exStats.getField "pending_review" = some 1 := by
  decide

/-- C2 (amended): the stats object the HR dashboard client consumes has
exactly the five fields total_candidates, pending_review, approved,
rejected, in_progress, and the dashboard renders exactly one stat card per
field, in the order total candidates, pending review, in progress, approved,
rejected. -/
theorem dashboard_stats_shape :
    ∀ s : DashboardStats,
      (∀ t : String, (s.getField t).isSome = true ↔ t ∈ clientStatsFieldNames) ∧
      statCards (some s) =
        [("Total Candidates", s.total_candidates), ("Pending Review", s.pending_review),
         ("In Progress", s.in_progress), ("Approved", s.approved),
         ("Rejected", s.rejected)] := by
  intro s
  refine ⟨fun t => ?_, rfl⟩
  simp only [DashboardStats.getField, clientStatsFieldNames]
  split_ifs with h1 h2 h3 h4 h5 <;>
    simp_all [List.mem_cons]

/-- C3 counterexample: the chat client reacts to frames of type "typing",
which is not one of the seven message kinds the spec names, and the voice
client sends frames of type "audio", which is not one of them either. -/
theorem protocol_uses_typing_and_audio_kinds :
    "typing" ∉ specKinds ∧
      (chatOnMessage {} { type := "typing" }).1.isTyping = true ∧
      ({} : ChatState).isTyping = false ∧
      "audio" ∉ specKinds ∧
      voiceRecorderOnStop true "Zm9v" =
        [.sendFrame { type := "audio", audioB64 := "Zm9v", format := "webm" }] := by
  decide

/-- C3 (amended): every message kind exchanged on the realtime protocol is
one of ready, message, transcription, response, status, error, end, typing
(chat server-to-client typing indicator) or audio (voice client-to-server
upload): both client dispatches ignore every kind outside this set, and
every frame either client sends has its type in this set. -/
theorem protocol_kinds_closed :
    (∀ (s : ChatState) (f : Frame), f.type ∉ extendedKinds → chatOnMessage s f = (s, [])) ∧
    (∀ (s : VoiceState) (f : Frame), f.type ∉ extendedKinds → voiceOnMessage s f = (s, [])) ∧
    (∀ (s : ChatState) (w : Bool) (f : Frame),
      ClientAction.sendFrame f ∈ (sendMessage s w).2 → f.type ∈ extendedKinds) ∧
    (∀ (w hs : Bool) (f : Frame),
      ClientAction.sendFrame f ∈ chatEndSessionClick w hs → f.type ∈ extendedKinds) ∧
    (∀ (w : Bool) (f : Frame),
      ClientAction.sendFrame f ∈ voiceEndSessionClick w → f.type ∈ extendedKinds) ∧
    (∀ (w : Bool) (b : String) (f : Frame),
      ClientAction.sendFrame f ∈ voiceRecorderOnStop w b → f.type ∈ extendedKinds) := by
  refine ⟨?_, ?_, ?_, ?_, ?_, ?_⟩
  · intro s f h
    have ht : f.type ≠ "typing" := fun e => h (by rw [e]; decide)
    have hr : f.type ≠ "response" := fun e => h (by rw [e]; decide)
    have hy : f.type ≠ "ready" := fun e => h (by rw [e]; decide)
    exact chatOnMessage_unhandled s f ht hr hy
  · intro s f h
    have h1 : f.type ≠ "ready" := fun e => h (by rw [e]; decide)
    have h2 : f.type ≠ "status" := fun e => h (by rw [e]; decide)
    have h3 : f.type ≠ "transcription" := fun e => h (by rw [e]; decide)
    have h4 : f.type ≠ "response" := fun e => h (by rw [e]; decide)
    have h5 : f.type ≠ "error" := fun e => h (by rw [e]; decide)
    exact voiceOnMessage_unhandled s f h1 h2 h3 h4 h5
  · intro s w f hf
    by_cases hc : jsTrim s.inputValue = "" ∨ w = false ∨ s.isConnected = false
    · simp [sendMessage, hc] at hf
    · simp [sendMessage, hc] at hf
      have ht : f.type = "message" := by rw [hf]
      rw [ht]; decide
  · intro w hs f hf
    cases w <;> cases hs <;> simp [chatEndSessionClick] at hf <;>
      · have ht : f.type = "end" := by rw [hf]
        rw [ht]; decide
  · intro w f hf
    cases w <;> simp [voiceEndSessionClick] at hf
    have ht : f.type = "end" := by rw [hf]
    rw [ht]; decide
  · intro w b f hf
    cases w <;> simp [voiceRecorderOnStop] at hf
    have ht : f.type = "audio" := by rw [hf]
    rw [ht]; decide

/-- C3 witness: the amended theorem applied to a concrete sent chat message
frame. -/
theorem protocol_kinds_closed_witness :
    ({ type := "message", content := "hello" } : Frame).type ∈ extendedKinds := by
  have h := protocol_kinds_closed.2.2.1
    { inputValue := "hello", isConnected := true } true
    { type := "message", content := "hello" }
  exact h (by decide)

/-- C4: endSession is idempotent. For every session whose closure discipline
holds (a closed session already carries its report), ending it twice gives
the same state as ending it once, both calls return (the operation is
total), the result is closed with exactly one report, and the chat client
flow indeed posts the session end both on a completed response and on the
end button press. -/
theorem endSession_idempotent :
    ∀ (st : SessionState) (cs : ChatState) (w : Bool),
      (st.stage = Stage.closed → st.report.isSome = true) →
      endSession (endSession st) = endSession st ∧
      (endSession st).stage = Stage.closed ∧
      reportCount (endSession st) = 1 ∧
      ClientAction.fetchEndSession ∈
        (chatOnMessage cs { type := "response", is_complete := true }).2 ∧
      ClientAction.fetchEndSession ∈ chatEndSessionClick w true := by
  intro st cs w hinv
  by_cases h : st.stage = Stage.closed
  · refine ⟨by simp [endSession, h], by simp [endSession, h], ?_, ?_, ?_⟩
    · simp [endSession, h, reportCount, hinv h]
    · simp [chatOnMessage]
    · cases w <;> simp [chatEndSessionClick]
  · refine ⟨?_, ?_, ?_, ?_, ?_⟩
    · simp [endSession, h]
    · simp [endSession, h]
    · simp [endSession, h, reportCount]
    · simp [chatOnMessage]
    · cases w <;> simp [chatEndSessionClick]

/-- C4 witness: the theorem applied to a fresh session, a fresh chat state
and an open socket. -/
theorem endSession_idempotent_witness :
    endSession (endSession { sid := "s1" }) = endSession { sid := "s1" } ∧
      reportCount (endSession { sid := "s1" }) = 1 := by
  have h := endSession_idempotent { sid := "s1" } {} true (by decide)
  exact ⟨h.1, h.2.2.1⟩

/-- C5: an HR decision is recorded at most once per report. On a report
without a decision, recordDecision succeeds and a second call on the result
fails with DecisionAlreadyRecorded; and whenever the dashboard renders the
decision actions (so handleDecision can be invoked), the latest report
exists and its decision is null, provided every recorded decision value is
one of approve, reject, hold. -/
theorem decision_recorded_at_most_once :
    ∀ (r : Report) (d d2 : String) (item : CandidateWithAssessment),
      r.hr_decision = none →
      (∀ rep : Report, item.latest_report = some rep →
        rep.hr_decision = none ∨
          ∃ v ∈ (["approve", "reject", "hold"] : List String), rep.hr_decision = some v) →
      (∃ r2, recordDecision r d = .ok r2 ∧ r2.hr_decision = some d ∧
        recordDecision r2 d2 = .error .decisionAlreadyRecorded) ∧
      (decisionGuard item = true →
        ∃ rep, item.latest_report = some rep ∧ rep.hr_decision = none) := by
  intro r d d2 item hr hinv
  constructor
  · refine ⟨{ r with hr_decision := some d, hr_reviewed := true }, ?_, rfl, ?_⟩
    · simp [recordDecision, hr]
    · simp [recordDecision]
  · intro hg
    cases hrep : item.latest_report with
    | none => simp [decisionGuard, hrep] at hg
    | some rep =>
      simp only [decisionGuard, hrep, Bool.not_eq_true'] at hg
      refine ⟨rep, rfl, ?_⟩
      rcases hinv rep hrep with hnone | ⟨v, hv, hsome⟩
      · exact hnone
      · exfalso
        rw [hsome] at hg
        have hvne : v ≠ "" := by
          simp only [List.mem_cons, List.not_mem_nil, or_false] at hv
          rcases hv with rfl | rfl | rfl <;> decide
        simp [jsTruthy, hvne] at hg

/-- Concrete candidate row used to instantiate the dashboard theorems. -/
def exCandidate : Candidate :=
  { id := "c1"
    name := "Ada"
    email := "ada@example.com"
    job_role := "Software Engineer"
    status := "hr_review"
    created_at := "2024-01-01" }

/-- Concrete report without a recorded decision. -/
def exReport : Report := { id := "r1" }

/-- Concrete dashboard row carrying the undecided report. -/
def exItem : CandidateWithAssessment :=
  { candidate := exCandidate, latest_report := some exReport }

/-- C5 witness: the theorem applied to a concrete undecided report and a
dashboard row carrying it. -/
theorem decision_recorded_at_most_once_witness :
    (∃ r2, recordDecision exReport "approve" = .ok r2 ∧
        r2.hr_decision = some "approve" ∧
        recordDecision r2 "reject" = .error .decisionAlreadyRecorded) ∧
      (∃ rep, exItem.latest_report = some rep ∧ rep.hr_decision = none) := by
  have h := decision_recorded_at_most_once exReport "approve" "reject" exItem
    rfl (by intro rep hrep; left; cases hrep; rfl)
  exact ⟨h.1, h.2 (by decide)⟩

/-- C6: an inbound chat turn is non-empty after normalization. For every
chat state and socket presence, every message frame sendMessage emits has
type "message", carries the raw input, and is sent only when the trimmed
input is non-empty; when the trimmed input is empty nothing is sent and the
state is unchanged. -/
theorem sendMessage_nonempty_after_trim :
    ∀ (s : ChatState) (w : Bool),
      (∀ f : Frame, ClientAction.sendFrame f ∈ (sendMessage s w).2 →
        f.type = "message" ∧ f.content = s.inputValue ∧ jsTrim s.inputValue ≠ "") ∧
      (jsTrim s.inputValue = "" → sendMessage s w = (s, [])) := by
  intro s w
  constructor
  · intro f hf
    by_cases hc : jsTrim s.inputValue = "" ∨ w = false ∨ s.isConnected = false
    · simp [sendMessage, hc] at hf
    · simp [sendMessage, hc] at hf
      push_neg at hc
      refine ⟨by rw [hf], by rw [hf], hc.1⟩
  · intro he
    simp [sendMessage, he]

/-- C6 witness: the theorem applied to a whitespace-only input, where nothing
is sent, and to a concrete non-empty input, whose emitted frame has type
"message". -/
theorem sendMessage_nonempty_after_trim_witness :
    sendMessage { inputValue := "   ", isConnected := true } true =
      ({ inputValue := "   ", isConnected := true }, []) ∧
      ({ type := "message", content := "hi" } : Frame).type = "message" := by
  constructor
  · exact (sendMessage_nonempty_after_trim
      { inputValue := "   ", isConnected := true } true).2 (by decide)
  · exact ((sendMessage_nonempty_after_trim
      { inputValue := "hi", isConnected := true } true).1
      { type := "message", content := "hi" } (by decide)).1

/-- One stage transition never moves backwards in the fixed stage order. -/
lemma stepStage_mono (s : Stage) (e : SessionEvent) : s.idx ≤ (stepStage s e).idx := by
  cases e with
  | turn c => cases c <;> cases s <;> decide
  | forcedEnd => cases s <;> decide

/-- Every stage in a trace is at or after the starting stage. -/
lemma stageTrace_lower_bound :
    ∀ (evs : List SessionEvent) (s : Stage) (b : Stage), b ∈ stageTrace s evs → s.idx ≤ b.idx := by
  intro evs
  induction evs with
  | nil =>
    intro s b hb
    simp [stageTrace] at hb
    rw [hb]
  | cons e es ih =>
    intro s b hb
    simp only [stageTrace, List.mem_cons] at hb
    rcases hb with rfl | hb
    · exact le_refl _
    · exact le_trans (stepStage_mono s e) (ih (stepStage s e) b hb)

/-- C7: for every session, the sequence of stage values observed over time is
non-decreasing under the fixed order, and no transition ever revisits an
earlier stage: every pair of stages in observation order is ordered by the
stage index. -/
theorem stage_sequence_monotone :
    ∀ (s : Stage) (evs : List SessionEvent),
      List.Pairwise (fun a b => Stage.idx a ≤ Stage.idx b) (stageTrace s evs) := by
  intro s evs
  induction evs generalizing s with
  | nil => simp [stageTrace]
  | cons e es ih =>
    simp only [stageTrace]
    refine List.Pairwise.cons ?_ (ih (stepStage s e))
    intro b hb
    exact le_trans (stepStage_mono s e) (stageTrace_lower_bound es (stepStage s e) b hb)

/-- C8: the non-null report-id assertions in the decision button handlers
never dereference null. Every decision call reachable from the table row or
the detail modal carries the id of an actually present latest report. -/
theorem decision_calls_never_null :
    ∀ (item : CandidateWithAssessment) (p : Option String × String),
      p ∈ tableDecisionCalls item ++ modalDecisionCalls item →
      ∃ rep, item.latest_report = some rep ∧ p.1 = some rep.id := by
  intro item p hp
  by_cases hg : decisionGuard item = true
  · cases hrep : item.latest_report with
    | none => simp [decisionGuard, hrep] at hg
    | some rep =>
      refine ⟨rep, rfl, ?_⟩
      simp [tableDecisionCalls, modalDecisionCalls, hg, hrep] at hp
      rcases hp with rfl | rfl | rfl | rfl | rfl <;> rfl
  · rw [Bool.not_eq_true] at hg
    simp [tableDecisionCalls, modalDecisionCalls, hg] at hp

/-- C8 witness: the theorem applied to a concrete undecided row and its
approve button. -/
theorem decision_calls_never_null_witness :
    ∃ rep, exItem.latest_report = some rep ∧
      ((some "r1", "approve") : Option String × String).1 = some rep.id := by
  exact decision_calls_never_null exItem (some "r1", "approve") (by decide)

/-- Reference filter from the claim: the pending filter keeps exactly the
candidates whose status is hr_review. -/
def pendingRef (c : CandidateWithAssessment) : Bool :=
  decide (c.candidate.status = "hr_review")

/-- Reference filter from the claim: the approved filter keeps exactly the
candidates whose latest report decision is approve. -/
def approvedRef (c : CandidateWithAssessment) : Bool :=
  match c.latest_report with
  | none => false
  | some r => decide (r.hr_decision = some "approve")

/-- Reference filter from the claim: the rejected filter keeps exactly the
candidates whose latest report decision is reject. -/
def rejectedRef (c : CandidateWithAssessment) : Bool :=
  match c.latest_report with
  | none => false
  | some r => decide (r.hr_decision = some "reject")

/-- C9: filteredCandidates agrees with the reference filter: the all filter
returns the list unchanged, pending keeps exactly the hr_review candidates,
approved and rejected keep exactly the rows whose latest report decision is
approve and reject, and every result is an order-preserving sublist of the
input. -/
theorem filteredCandidates_correct :
    ∀ l : List CandidateWithAssessment,
      filteredCandidates "all" l = l ∧
      filteredCandidates "pending" l = l.filter pendingRef ∧
      filteredCandidates "approved" l = l.filter approvedRef ∧
      filteredCandidates "rejected" l = l.filter rejectedRef ∧
      ∀ f : String, (filteredCandidates f l).Sublist l := by
  intro l
  have hall : candidateFilterPred "all" = fun _ => true := by
    funext c; simp [candidateFilterPred]
  have hpend : candidateFilterPred "pending" = pendingRef := by
    funext c; simp [candidateFilterPred, pendingRef]
  have happ : candidateFilterPred "approved" = approvedRef := by
    funext c; simp [candidateFilterPred, approvedRef]
  have hrej : candidateFilterPred "rejected" = rejectedRef := by
    funext c; simp [candidateFilterPred, rejectedRef]
  refine ⟨?_, ?_, ?_, ?_, ?_⟩
  · rw [filteredCandidates, hall, List.filter_true]
  · rw [filteredCandidates, hpend]
  · rw [filteredCandidates, happ]
  · rw [filteredCandidates, hrej]
  · intro f
    exact List.filter_sublist l

/-- C10: recording never begins while the assistant is thinking or speaking
or after the interview completes. In every UI transition of the voice page,
if recording starts then the event was the microphone click and the prior
state was connected, with the avatar neither speaking nor thinking and the
interview not complete; and the microphone button is enabled exactly under
those conditions. -/
theorem recording_starts_only_when_idle :
    ∀ (s : VoiceState) (e : VoiceEvent),
      ((voiceStep s e).1.isRecording = true → s.isRecording = false →
        e = VoiceEvent.micClick ∧ s.isConnected = true ∧ s.avatarState ≠ "speaking" ∧
          s.avatarState ≠ "thinking" ∧ s.isComplete = false) ∧
      (micDisabled s = false ↔
        (s.isConnected = true ∧ s.avatarState ≠ "speaking" ∧ s.avatarState ≠ "thinking" ∧
          s.isComplete = false)) := by
  intro s e
  have hiff : micDisabled s = false ↔
      (s.isConnected = true ∧ s.avatarState ≠ "speaking" ∧ s.avatarState ≠ "thinking" ∧
        s.isComplete = false) := by
    simp [micDisabled, not_or]
    tauto
  refine ⟨?_, hiff⟩
  intro hrec hnot
  cases e with
  | wsOpen => simp [voiceStep] at hrec; rw [hrec] at hnot; cases hnot
  | wsClose => simp [voiceStep] at hrec; rw [hrec] at hnot; cases hnot
  | wsMsg f =>
    rw [voiceStep, voiceOnMessage_isRecording] at hrec
    rw [hrec] at hnot; cases hnot
  | playbackEnded => simp [voiceStep] at hrec; rw [hrec] at hnot; cases hnot
  | recorderStopped wl b =>
    simp [voiceStep] at hrec; rw [hrec] at hnot; cases hnot
  | micClick =>
    by_cases hd : micDisabled s = true
    · simp [voiceStep, hd] at hrec; rw [hrec] at hnot; cases hnot
    · rw [Bool.not_eq_true] at hd
      rcases hiff.1 hd with ⟨h1, h2, h3, h4⟩
      exact ⟨rfl, h1, h2, h3, h4⟩

/-- C10 witness: the theorem applied to a connected idle state and the
microphone click that starts recording. -/
theorem recording_starts_only_when_idle_witness :
    (voiceStep { isConnected := true } VoiceEvent.micClick).1.isRecording = true ∧
      ({ isConnected := true } : VoiceState).avatarState ≠ "speaking" := by
  refine ⟨by decide, ?_⟩
  exact ((recording_starts_only_when_idle { isConnected := true } VoiceEvent.micClick).1
    (by decide) (by decide)).2.2.1

end Assess
